import Mathlib

/-!
Shallow embedding of CivicBridge's representative-data caching and
enrichment layer: `backend/models/db.py` (the `representative_cache`
table and its functions), `backend/apis/geocodio_client.py` (ZIP
resolution and chamber classification), `backend/apis/congress_api.py`
(legislative-activity fetches) and `backend/apis/genai.py`
(`_fetch_representative_data`).

Time is a natural number of seconds; SQLite's
`datetime('now', '+1 day')` becomes `now + TTL` with `TTL = 86400`.
The SQLite table is a list of rows in rowid order: `INSERT OR REPLACE`
removes any row conflicting on `UNIQUE(zip_code, bioguide_id)` and
appends the fresh row, `DELETE` filters, `UPDATE` maps.  External HTTP
calls are oracles passed in as function arguments; a raised Python
exception at an interface boundary is an `Except.error` value.
-/

/-- Seconds in the fixed `'+1 day'` TTL applied by both the
`expires_at` column default and `update_representative_congress_data`. -/
def TTL : Nat := 86400

/-- Python's `a or b` on optional strings: `a` wins unless it is falsy
(`None` or `""`). -/
def pyOr (a b : Option String) : Option String :=
  match a with
  | some s => if s.isEmpty then b else some s
  | none => b

/-- Lowercase a string per Python's `str.lower`, character by character. -/
def strLower (s : String) : String := String.mk (s.toList.map Char.toLower)

/-- Uppercase a string per Python's `str.upper`, character by character. -/
def strUpper (s : String) : String := String.mk (s.toList.map Char.toUpper)

/-- Python's `sub in s` substring test. -/
def containsSub (s sub : String) : Bool := decide (sub.toList <:+: s.toList)

/-- Python's `str.strip`: drop whitespace from both ends. -/
def strStrip (s : String) : String :=
  String.mk (((s.toList.dropWhile Char.isWhitespace).reverse.dropWhile Char.isWhitespace).reverse)

/-- One item of the "voting record" assembled by
`congress_api.get_member_voting_record`; the same shape is stored (as
JSON text) in the cache's `recent_bills` / `recent_votes` columns. -/
structure ActivityItem where
  date : String
  bill_title : String
  bill_number : String
  position : String
  latest_action : String
  congress : String
  policy_area : String
deriving Repr, DecidableEq

/-- One row of the `representative_cache` SQLite table (db.py lines
35-60).  NOT NULL columns are `String`, nullable columns are
`Option String`; the two JSON-encoded activity columns are kept
structured because `json.dumps` / `json.loads` round-trip them. -/
structure Row where
  zip_code : String
  bioguide_id : String
  name : String
  party : Option String
  chamber : Option String
  district : Option String
  state : String
  seniority : Option String
  phone : Option String
  office_address : Option String
  website : Option String
  contact_form : Option String
  twitter : Option String
  facebook : Option String
  youtube : Option String
  photo_url : Option String
  recent_bills : List ActivityItem
  recent_votes : List ActivityItem
  created_at : Nat
  expires_at : Nat
deriving Repr, DecidableEq

/-- The nested `social` dictionary of an input record to
`cache_representatives`. -/
structure SocialDict where
  twitter : Option String
  facebook : Option String
  youtube : Option String
deriving Repr, DecidableEq

/-- One input dictionary to `cache_representatives`.  The fields the
INSERT reads through `rep.get(...)`; `bioguide_id`, `name` and `state`
back NOT NULL columns, so a well-formed record carries them. -/
structure RepInput where
  bioguide_id : String
  name : String
  party : Option String
  chamber : Option String
  district : Option String
  state : String
  seniority : Option String
  phone : Option String
  address : Option String
  website : Option String
  contact_form : Option String
  twitter : Option String
  social : SocialDict
  photo_url : Option String
  recent_bills : List ActivityItem
  recent_votes : List ActivityItem
deriving Repr, DecidableEq

/-- Translation of the 18-column `INSERT OR REPLACE` in
`cache_representatives` (db.py lines 175-200): `created_at` and
`expires_at` take their column defaults `CURRENT_TIMESTAMP` and
`datetime('now', '+1 day')`; the stored twitter handle is
`rep.get('twitter') or social.get('twitter')`. -/
def toRow (zip_code : String) (now : Nat) (rep : RepInput) : Row :=
  { zip_code := zip_code
    bioguide_id := rep.bioguide_id
    name := rep.name
    party := rep.party
    chamber := rep.chamber
    district := rep.district
    state := rep.state
    seniority := rep.seniority
    phone := rep.phone
    office_address := rep.address
    website := rep.website
    contact_form := rep.contact_form
    twitter := pyOr rep.twitter rep.social.twitter
    facebook := rep.social.facebook
    youtube := rep.social.youtube
    photo_url := rep.photo_url
    recent_bills := rep.recent_bills
    recent_votes := rep.recent_votes
    created_at := now
    expires_at := now + TTL }

/-- The `representative_cache` table, rows in rowid order. -/
abbrev Cache := List Row

/-- Effect of one `INSERT OR REPLACE` on the table: SQLite deletes any
row conflicting on `UNIQUE(zip_code, bioguide_id)` and appends the new
row with a fresh rowid. -/
def insertOrReplace (row : Row) (c : Cache) : Cache :=
  c.filter (fun r => !(r.zip_code == row.zip_code && r.bioguide_id == row.bioguide_id))
    ++ [row]

/-- db.py `cache_representatives`: in one transaction, `DELETE FROM
representative_cache WHERE zip_code = ?`, then `INSERT OR REPLACE` each
record in order. -/
def cache_representatives (zip_code : String) (representatives : List RepInput)
    (c : Cache) (now : Nat) : Cache :=
  representatives.foldl (fun acc rep => insertOrReplace (toRow zip_code now rep) acc)
    (c.filter (fun r => !(r.zip_code == zip_code)))

/-- One dictionary of the list returned by `get_cached_representatives`
(db.py lines 234-254): the row minus `zip_code` / `expires_at`, with
`cached_at` set to `created_at` and the literal `source := "cache"`. -/
structure RepOut where
  bioguide_id : String
  name : String
  party : Option String
  chamber : Option String
  district : Option String
  state : String
  seniority : Option String
  phone : Option String
  office_address : Option String
  website : Option String
  contact_form : Option String
  twitter : Option String
  facebook : Option String
  youtube : Option String
  photo_url : Option String
  recent_bills : List ActivityItem
  recent_votes : List ActivityItem
  cached_at : Nat
  source : String
deriving Repr, DecidableEq

/-- Projection of a cached row to the dictionary
`get_cached_representatives` returns for it. -/
def toOut (r : Row) : RepOut :=
  { bioguide_id := r.bioguide_id
    name := r.name
    party := r.party
    chamber := r.chamber
    district := r.district
    state := r.state
    seniority := r.seniority
    phone := r.phone
    office_address := r.office_address
    website := r.website
    contact_form := r.contact_form
    twitter := r.twitter
    facebook := r.facebook
    youtube := r.youtube
    photo_url := r.photo_url
    recent_bills := r.recent_bills
    recent_votes := r.recent_votes
    cached_at := r.created_at
    source := "cache" }

/-- SQL `CASE chamber WHEN 'Representative' THEN 1 WHEN 'Senator' THEN 2
END`: the missing ELSE yields NULL for any other chamber, and SQLite
orders NULL before every number — encoded as key 0. -/
def chamberKey : Option String → Nat
  | some "Representative" => 1
  | some "Senator" => 2
  | _ => 0

/-- SQL `CASE seniority WHEN 'senior' THEN 1 WHEN 'junior' THEN 2 ELSE 3
END`. -/
def seniorityKey : Option String → Nat
  | some "senior" => 1
  | some "junior" => 2
  | _ => 3

/-- Combined ORDER BY key of `get_cached_representatives`: chamber rank
first, seniority rank second. -/
def rowKey (r : Row) : Nat := chamberKey r.chamber * 4 + seniorityKey r.seniority

/-- The SELECT's ORDER BY, as a stable sort on `rowKey`. -/
def sortRows (l : List Row) : List Row :=
  List.insertionSort (fun a b => rowKey a ≤ rowKey b) l

/-- Rows matched by the SELECT in `get_cached_representatives`:
`WHERE zip_code = ? AND expires_at > datetime('now')`. -/
def visibleRows (zip_code : String) (c : Cache) (now : Nat) : Cache :=
  c.filter (fun r => r.zip_code == zip_code && decide (now < r.expires_at))

/-- db.py `get_cached_representatives`: `none` models Python's
`return None` when the query matches no rows (line 230); otherwise the
ordered projection of the visible rows.  The function catches storage
exceptions, so it never raises. -/
def get_cached_representatives (zip_code : String) (c : Cache) (now : Nat) :
    Option (List RepOut) :=
  let rows := sortRows (visibleRows zip_code c now)
  if rows.isEmpty then none
  else some (rows.map toOut)

/-- List of records behind an optional reply: the empty list for the
`None` reply, mirroring how every caller treats a falsy result. -/
def repsOf : Option (List RepOut) → List RepOut
  | none => []
  | some reps => reps

/-- Return value of `get_representatives_by_type`. -/
structure GroupedReps where
  senators : List RepOut
  representative : List RepOut
deriving Repr, DecidableEq

/-- db.py `get_representatives_by_type`: group the visible cached
records by chamber equality; Python's `if not all_reps:` guard covers
both `None` and the empty list. -/
def get_representatives_by_type (zip_code : String) (c : Cache) (now : Nat) :
    GroupedReps :=
  match get_cached_representatives zip_code c now with
  | none => ⟨[], []⟩
  | some all_reps =>
    if all_reps.isEmpty then ⟨[], []⟩
    else
      ⟨all_reps.filter (fun rep => rep.chamber == some "Senator"),
       all_reps.filter (fun rep => rep.chamber == some "Representative")⟩

/-- Effect of the UPDATE in `update_representative_congress_data` on one
row: set `recent_bills`, `recent_votes` and
`expires_at = datetime('now', '+1 day')` when the row matches
`(zip_code, bioguide_id)`; otherwise leave it untouched. -/
def refreshRow (zip_code bioguide_id : String) (bills votes : List ActivityItem)
    (now : Nat) (r : Row) : Row :=
  if r.zip_code == zip_code && r.bioguide_id == bioguide_id then
    { r with recent_bills := bills, recent_votes := votes, expires_at := now + TTL }
  else r

/-- db.py `update_representative_congress_data`: the UPDATE touches
every matching row and nothing else; `rowcount = 0` only prints a
message, it raises nothing. -/
def update_representative_congress_data (zip_code bioguide_id : String)
    (bills votes : List ActivityItem) (c : Cache) (now : Nat) : Cache :=
  c.map (refreshRow zip_code bioguide_id bills votes now)

/-- Local variable `deleted_count = c.rowcount` computed inside
`cleanup_expired_representatives` (db.py line 311): the number of rows
the DELETE matched.  The Python function only prints this value, and
only when it is positive; it never returns it. -/
def cleanupDeletedCount (c : Cache) (now : Nat) : Nat :=
  (c.filter (fun r => decide (r.expires_at < now))).length

/-- db.py `cleanup_expired_representatives`: `DELETE FROM
representative_cache WHERE expires_at < datetime('now')`.  The function
body ends without a `return` statement, so its Python return value is
`None` — modelled as the constantly-`none` first component — next to
the new table state. -/
def cleanup_expired_representatives (c : Cache) (now : Nat) : Option Nat × Cache :=
  (none, c.filter (fun r => !decide (r.expires_at < now)))

/-- Rows currently stored for a ZIP code, expired or not. -/
def rowsFor (zip_code : String) (c : Cache) : Cache :=
  c.filter (fun r => r.zip_code == zip_code)

/-- The table's `UNIQUE(zip_code, bioguide_id)` constraint as an
invariant on the modelled row list. -/
def keysNodup (c : Cache) : Prop :=
  (c.map (fun r => (r.zip_code, r.bioguide_id))).Nodup

/-! ## Geocodio client (`backend/apis/geocodio_client.py`) -/

/-- Biographical sub-object of an upstream Geocodio legislator. -/
structure Bio where
  first_name : Option String
  last_name : Option String
  party : Option String
  photo_url : Option String
deriving Repr, DecidableEq

/-- Contact sub-object of an upstream Geocodio legislator. -/
structure ContactInfo where
  phone : Option String
  address : Option String
  url : Option String
  contact_form : Option String
deriving Repr, DecidableEq

/-- Social-media sub-object of an upstream Geocodio legislator. -/
structure SocialInfo where
  twitter : Option String
deriving Repr, DecidableEq

/-- The `references` sub-object carrying the bioguide id. -/
structure ReferenceIds where
  bioguide_id : Option String
deriving Repr, DecidableEq

/-- One entry of Geocodio's `current_legislators` list. -/
structure Legislator where
  type : Option String
  bio : Bio
  contact : ContactInfo
  social : SocialInfo
  references : ReferenceIds
deriving Repr, DecidableEq

/-- The `location` object of a Geocodio result item. -/
structure GeoLocation where
  city : Option String
  state : Option String
  county : Option String
deriving Repr, DecidableEq

/-- One entry of Geocodio's `fields.congressional_districts` list. -/
structure CDInfo where
  district_number : Option Nat
  name : Option String
  current_legislators : List Legislator
deriving Repr, DecidableEq

/-- One item of Geocodio's `results` list. -/
structure GeoResultItem where
  location : GeoLocation
  congressional_districts : List CDInfo
deriving Repr, DecidableEq

/-- Outcome of the external `GeocodioClient.geocode` call: either the
parsed reply or a raised transport / parse error. -/
inductive GeoReply where
  | failure (msg : String)
  | reply (results : List GeoResultItem)
deriving Repr, DecidableEq

/-- The `congressional_district` sub-dictionary built by
`lookup_zip_code`. -/
structure CongressionalDistrict where
  number : Option Nat
  name : Option String
  current_legislators : List Legislator
deriving Repr, DecidableEq

/-- The `district_info` dictionary returned by `lookup_zip_code`. -/
structure DistrictInfo where
  zip_code : String
  city : Option String
  state : Option String
  county : Option String
  congressional_district : CongressionalDistrict
deriving Repr, DecidableEq

/-- Negation of the guard at the top of `lookup_zip_code`
(geocodio_client.py line 41): the ZIP passes when it is non-empty, all
digits and exactly 5 characters long. -/
def validZip (z : String) : Bool :=
  !z.isEmpty && z.toList.all Char.isDigit && z.length == 5

/-- geocodio_client.py `lookup_zip_code`, the external `geocode` call
abstracted as an oracle; `Except.error` models a raised
`GeocodioError`. -/
def lookup_zip_code (geocode : String → GeoReply) (zip_code : String) :
    Except String DistrictInfo :=
  if !validZip zip_code then
    .error "Invalid ZIP code format. Must be a 5-digit number."
  else
    match geocode zip_code with
    | .failure msg =>
      .error ("Geocodio API error for ZIP code " ++ zip_code ++ ": " ++ msg)
    | .reply results =>
      if results.isEmpty then
        .error ("No results found for ZIP code " ++ zip_code ++ ".")
      else
        match results.find? (fun item => !item.congressional_districts.isEmpty) with
        | none =>
          .error ("No congressional district information found for ZIP code "
            ++ zip_code ++ ".")
        | some item =>
          match item.congressional_districts.head? with
          | none =>
            .error ("No congressional district information found for ZIP code "
              ++ zip_code ++ ".")
          | some cd =>
            .ok { zip_code := zip_code
                  city := item.location.city
                  state := item.location.state
                  county := item.location.county
                  congressional_district :=
                    { number := cd.district_number
                      name := cd.name
                      current_legislators := cd.current_legislators } }

/-- The `rep_info` dictionary built for one legislator inside
`get_representatives` (geocodio_client.py lines 100-135). -/
structure GeoRepInfo where
  name : String
  party : String
  title : Option String
  chamber : String
  district : Option Nat
  state : Option String
  bioguide_id : Option String
  phone : Option String
  address : Option String
  website : Option String
  contact_form : Option String
  twitter : Option String
  photo_url : Option String
deriving Repr, DecidableEq

/-- Loop body of `get_representatives`: extract name and party from the
nested `bio` object with empty-string defaults, then classify the
chamber by substring matching on the lower-cased `type` field —
`"senator"` yields Senator with no district, `"representative"` yields
Representative with the district number, anything else falls back to
Legislator, also with the district number. -/
def normalizeLegislator (district_info : DistrictInfo) (legislator : Legislator) :
    GeoRepInfo :=
  let bio := legislator.bio
  let name := strStrip (bio.first_name.getD "" ++ " " ++ bio.last_name.getD "")
  let party := bio.party.getD ""
  let contact := legislator.contact
  let title := strLower (legislator.type.getD "")
  let roleDistrict : String × Option Nat :=
    if containsSub title "senator" then ("Senator", none)
    else if containsSub title "representative" then
      ("Representative", district_info.congressional_district.number)
    else ("Legislator", district_info.congressional_district.number)
  { name := name
    party := party
    title := legislator.type
    chamber := roleDistrict.1
    district := roleDistrict.2
    state := district_info.state
    bioguide_id := legislator.references.bioguide_id
    phone := contact.phone
    address := contact.address
    website := contact.url
    contact_form := contact.contact_form
    twitter := legislator.social.twitter
    photo_url := bio.photo_url }

/-- geocodio_client.py `get_representatives`: resolve the ZIP, then
normalize every current legislator; a `GeocodioError` raised by the
lookup is re-raised unchanged (`except GeocodioError: raise`). -/
def geocodio_get_representatives (geocode : String → GeoReply) (zip_code : String) :
    Except String (List GeoRepInfo) :=
  match lookup_zip_code geocode zip_code with
  | .error e => .error e
  | .ok district_info =>
    .ok (district_info.congressional_district.current_legislators.map
      (normalizeLegislator district_info))

/-! ## Congress API client (`backend/apis/congress_api.py`) -/

/-- The `latestAction` object of a Congress API bill. -/
structure LatestAction where
  actionDate : Option String
  text : Option String
deriving Repr, DecidableEq

/-- The `policyArea` object of a Congress API bill. -/
structure PolicyArea where
  name : Option String
deriving Repr, DecidableEq

/-- One bill object from the Congress API's sponsored / cosponsored
legislation lists. -/
structure Bill where
  latestAction : Option LatestAction
  policyArea : Option PolicyArea
  title : Option String
  type : Option String
  number : Option String
  congress : Option Nat
deriving Repr, DecidableEq

/-- Oracle for one Congress API list endpoint, taking the bioguide id
and the `limit` request parameter; `Except.error` models a raised
`requests` exception. -/
abbrev BillFetch := String → Nat → Except String (List Bill)

/-- congress_api.py `get_member_sponsored_legislation` (lines 308-337):
on a request exception the function logs and returns `[]` instead of
raising ("demo resilience"). -/
def get_member_sponsored_legislation (fetch : BillFetch) (bioguide_id : String)
    (limit : Nat) : List Bill :=
  match fetch bioguide_id limit with
  | .ok bills => bills
  | .error _ => []

/-- congress_api.py `get_member_cosponsored_legislation`: same
catch-and-return-empty shape as the sponsored variant. -/
def get_member_cosponsored_legislation (fetch : BillFetch) (bioguide_id : String)
    (limit : Nat) : List Bill :=
  match fetch bioguide_id limit with
  | .ok bills => bills
  | .error _ => []

/-- Translation of one `vote_item` dictionary built inside
`get_member_voting_record`, with Python's `or {}` / `get(..., default)`
fallbacks. -/
def mkVoteItem (position : String) (bill : Bill) : ActivityItem :=
  let latest_action := bill.latestAction.getD ⟨none, none⟩
  let bill_type := bill.type.getD ""
  let bill_number := bill.number.getD ""
  { date := latest_action.actionDate.getD ""
    bill_title := bill.title.getD "Unknown Bill"
    bill_number :=
      if bill_type.isEmpty then bill_number
      else strUpper bill_type ++ " " ++ bill_number
    position := position
    latest_action := latest_action.text.getD "No action recorded"
    congress := match bill.congress with | some n => toString n | none => ""
    policy_area := match bill.policyArea with | some pa => pa.name.getD "" | none => "" }

/-- Python `voting_record.sort(key=lambda x: x['date'], reverse=True)`:
stable sort, most recent date first. -/
def sortByDateDesc (l : List ActivityItem) : List ActivityItem :=
  List.insertionSort (fun a b => b.date ≤ a.date) l

/-- congress_api.py `get_member_voting_record`: combine sponsored and
cosponsored bills (each endpoint asked for `limit // 2`) into "voting
record" items, sort by date descending and truncate to `limit`; the
inner fetches already return `[]` on failure, so nothing raises. -/
def get_member_voting_record (sponsoredFetch cosponsoredFetch : BillFetch)
    (bioguide_id : String) (limit : Nat) : List ActivityItem :=
  let sponsored := get_member_sponsored_legislation sponsoredFetch bioguide_id (limit / 2)
  let cosponsored :=
    get_member_cosponsored_legislation cosponsoredFetch bioguide_id (limit / 2)
  let voting_record :=
    sponsored.map (mkVoteItem "Sponsored") ++ cosponsored.map (mkVoteItem "Cosponsored")
  (sortByDateDesc voting_record).take limit

/-! ## Chat enrichment helper (`backend/apis/genai.py`) -/

/-- One element of the list built by `_fetch_representative_data`: the
geocodio record, plus the `recent_activity` key when a bioguide id was
present. -/
structure EnhancedRep where
  rep : GeoRepInfo
  recent_activity : Option (List ActivityItem)
deriving Repr, DecidableEq

/-- Per-legislator body of the loop in `_fetch_representative_data`
(genai.py lines 164-170); Python's `if bioguide_id:` is false for both
`None` and the empty string. -/
def enhanceRep (sponsoredFetch cosponsoredFetch : BillFetch) (rep : GeoRepInfo) :
    EnhancedRep :=
  let bioguide_id := rep.bioguide_id.getD ""
  if bioguide_id.isEmpty then { rep := rep, recent_activity := none }
  else
    { rep := rep
      recent_activity :=
        some (get_member_voting_record sponsoredFetch cosponsoredFetch bioguide_id 5) }

/-- genai.py `_fetch_representative_data`: fetch the geocodio
representatives, keep the first 3 and attach recent activity; the
enclosing `except Exception` turns any raised error — including a
`GeocodioError` from the resolution step — into the empty list. -/
def fetch_representative_data (geocode : String → GeoReply)
    (sponsoredFetch cosponsoredFetch : BillFetch) (zip_code : String) :
    List EnhancedRep :=
  match geocodio_get_representatives geocode zip_code with
  | .error _ => []
  | .ok reps => (reps.take 3).map (enhanceRep sponsoredFetch cosponsoredFetch)

/-! ## Concrete fixtures used by witnesses and counterexamples -/

/-- A cached row that is already expired at time 100. -/
def rowExpired : Row :=
  { zip_code := "12601", bioguide_id := "A1", name := "Ann Expired", party := some "D",
    chamber := some "Representative", district := some "18", state := "NY",
    seniority := none, phone := none, office_address := none, website := none,
    contact_form := none, twitter := none, facebook := none, youtube := none,
    photo_url := none, recent_bills := [], recent_votes := [],
    created_at := 0, expires_at := 5 }

/-- A cached row still live at time 100. -/
def rowLive : Row :=
  { zip_code := "12601", bioguide_id := "B2", name := "Bob Live", party := some "R",
    chamber := some "Senator", district := none, state := "NY",
    seniority := some "senior", phone := none, office_address := none, website := none,
    contact_form := none, twitter := none, facebook := none, youtube := none,
    photo_url := none, recent_bills := [], recent_votes := [],
    created_at := 0, expires_at := 500 }

/-- A visible cached row whose chamber is the `Legislator` fallback. -/
def rowLegislator : Row :=
  { zip_code := "10001", bioguide_id := "L9", name := "Lee Fallback", party := none,
    chamber := some "Legislator", district := some "12", state := "NY",
    seniority := none, phone := none, office_address := none, website := none,
    contact_form := none, twitter := none, facebook := none, youtube := none,
    photo_url := none, recent_bills := [], recent_votes := [],
    created_at := 0, expires_at := 1000 }

/-- An empty social dictionary. -/
def noSocial : SocialDict := { twitter := none, facebook := none, youtube := none }

/-- Input record A for the replace-semantics scenario. -/
def repInA : RepInput :=
  { bioguide_id := "A1", name := "Ann", party := some "D", chamber := some "Representative",
    district := some "18", state := "NY", seniority := none, phone := none,
    address := none, website := none, contact_form := none, twitter := none,
    social := noSocial, photo_url := none, recent_bills := [], recent_votes := [] }

/-- Input record B for the replace-semantics scenario. -/
def repInB : RepInput :=
  { bioguide_id := "B2", name := "Bob", party := some "R", chamber := some "Senator",
    district := none, state := "NY", seniority := some "senior", phone := none,
    address := none, website := none, contact_form := none, twitter := none,
    social := noSocial, photo_url := none, recent_bills := [], recent_votes := [] }

/-- Input record C for the replace-semantics scenario. -/
def repInC : RepInput :=
  { bioguide_id := "C3", name := "Cyd", party := some "D", chamber := some "Senator",
    district := none, state := "NY", seniority := some "junior", phone := none,
    address := none, website := none, contact_form := none, twitter := none,
    social := noSocial, photo_url := none, recent_bills := [], recent_votes := [] }

/-- Cache produced by caching record A for ZIP 12601 at time 0 and then
refreshing its activity at time 10. -/
def refreshedDemoCache : Cache :=
  update_representative_congress_data "12601" "A1" [] []
    (cache_representatives "12601" [repInA] [] 0) 10

/-- A small biographical object for stub legislators. -/
def demoBio (fn ln : String) : Bio :=
  { first_name := some fn, last_name := some ln, party := some "D", photo_url := none }

/-- An empty contact object. -/
def noContact : ContactInfo :=
  { phone := none, address := none, url := none, contact_form := none }

/-- A stub legislator whose upstream type names a senator. -/
def demoSenLeg : Legislator :=
  { type := some "U.S. Senator", bio := demoBio "Sally" "Senate", contact := noContact,
    social := { twitter := none }, references := { bioguide_id := some "S1" } }

/-- A stub legislator whose upstream type names a representative. -/
def demoRepLeg : Legislator :=
  { type := some "U.S. Representative", bio := demoBio "Ray" "House", contact := noContact,
    social := { twitter := none }, references := { bioguide_id := some "R1" } }

/-- A stub legislator with an unclassifiable upstream type. -/
def demoOtherLeg : Legislator :=
  { type := some "Delegate", bio := demoBio "Dee" "Gate", contact := noContact,
    social := { twitter := none }, references := { bioguide_id := some "D1" } }

/-- Location object of the stub Geocodio reply. -/
def demoLocation : GeoLocation :=
  { city := some "Poughkeepsie", state := some "NY", county := some "Dutchess" }

/-- Congressional-district object of the stub Geocodio reply. -/
def demoCD : CDInfo :=
  { district_number := some 18, name := some "NY-18",
    current_legislators := [demoRepLeg, demoSenLeg, demoOtherLeg] }

/-- One result item of the stub Geocodio reply. -/
def demoGeoItem : GeoResultItem :=
  { location := demoLocation, congressional_districts := [demoCD] }

/-- A geocode oracle answering every ZIP with the stub reply. -/
def demoGeo : String → GeoReply := fun _ => .reply [demoGeoItem]

/-- The `district_info` dictionary `lookup_zip_code` builds for ZIP
12601 from the stub reply. -/
def demoDistrictInfo : DistrictInfo :=
  { zip_code := "12601", city := demoLocation.city, state := demoLocation.state,
    county := demoLocation.county,
    congressional_district :=
      { number := demoCD.district_number, name := demoCD.name,
        current_legislators := demoCD.current_legislators } }

/-- The normalized records `get_representatives` yields for the stub
reply. -/
def demoGeoReps : List GeoRepInfo :=
  demoDistrictInfo.congressional_district.current_legislators.map
    (normalizeLegislator demoDistrictInfo)

/-- A geocode oracle whose transport always fails. -/
def geoFailStub : String → GeoReply := fun _ => .failure "connection refused"

/-- A bill-fetch oracle that always succeeds with no bills. -/
def billsOkStub : BillFetch := fun _ _ => .ok []

/-- A bill-fetch oracle that always raises. -/
def billsFailStub : BillFetch := fun _ _ => .error "timeout"

/-! ## Helper lemmas -/

theorem keysNodup_inj {c : Cache} (h : keysNodup c) {a b : Row}
    (ha : a ∈ c) (hb : b ∈ c)
    (hzip : a.zip_code = b.zip_code) (hbio : a.bioguide_id = b.bioguide_id) :
    a = b :=
  List.inj_on_of_nodup_map h ha hb (by rw [hzip, hbio])

theorem sortRows_perm (l : List Row) : (sortRows l).Perm l :=
  List.perm_insertionSort _ _

/-! ## Cache maintenance (claim C5) -/

/-- C5 counterexample: on a cache where the DELETE matches exactly one
expired row, `cleanup_expired_representatives` still returns `None` —
not the positive count 1 the claim asserts — and the second consecutive
call also returns `None`, not 0. -/
theorem cleanup_returns_none_not_count :
    (cleanup_expired_representatives [rowExpired, rowLive] 100).1 = none
    ∧ cleanupDeletedCount [rowExpired, rowLive] 100 = 1
    ∧ (cleanup_expired_representatives
        (cleanup_expired_representatives [rowExpired, rowLive] 100).2 100).1 = none
    ∧ (none : Option Nat) ≠ some 1
    ∧ (none : Option Nat) ≠ some 0 :=
  ⟨rfl, by decide, rfl, by decide, by decide⟩

/-- C5 amended: `cleanup_expired_representatives` deletes exactly the
rows whose `expires_at` is earlier than the current time, but its
Python return value is `None` — the deleted count exists only as the
local `deleted_count = c.rowcount`, printed when positive, never
returned.  Called twice consecutively with no intervening writes the
local count is positive (when expired rows existed) then 0, and the
second call changes nothing. -/
theorem cleanup_expired_exact_and_idempotent (c : Cache) (now : Nat) :
    (cleanup_expired_representatives c now).2
        = c.filter (fun r => !decide (r.expires_at < now))
    ∧ (cleanup_expired_representatives c now).1 = none
    ∧ cleanupDeletedCount c now
        = (c.filter (fun r => decide (r.expires_at < now))).length
    ∧ cleanupDeletedCount (cleanup_expired_representatives c now).2 now = 0
    ∧ (cleanup_expired_representatives (cleanup_expired_representatives c now).2 now).2
        = (cleanup_expired_representatives c now).2
    ∧ ((∃ r ∈ c, r.expires_at < now) → 0 < cleanupDeletedCount c now) := by
  refine ⟨rfl, rfl, rfl, ?_, ?_, ?_⟩
  · simp [cleanupDeletedCount, cleanup_expired_representatives, List.filter_filter]
  · simp [cleanup_expired_representatives, List.filter_filter]
  · rintro ⟨r, hr, hlt⟩
    have hmem : r ∈ c.filter (fun r => decide (r.expires_at < now)) :=
      List.mem_filter.mpr ⟨hr, by simpa using hlt⟩
    exact List.length_pos.mpr (List.ne_nil_of_mem hmem)

/-- C5 amended witness: with one expired and one live row at time 100,
the first pass computes a positive local count and the second pass
computes 0. -/
theorem cleanup_expired_witness :
    (∃ r ∈ [rowExpired, rowLive], r.expires_at < 100)
    ∧ 0 < cleanupDeletedCount [rowExpired, rowLive] 100
    ∧ cleanupDeletedCount
        (cleanup_expired_representatives [rowExpired, rowLive] 100).2 100 = 0 :=
  ⟨by decide,
   (cleanup_expired_exact_and_idempotent [rowExpired, rowLive] 100).2.2.2.2.2 (by decide),
   (cleanup_expired_exact_and_idempotent [rowExpired, rowLive] 100).2.2.2.1⟩

/-! ## Refresh frame property (claim C6) -/

/-- C6: `update_representative_congress_data` maps every row through
`refreshRow`; a non-matching row comes back identical, a matching row
changes only `recent_bills`, `recent_votes` and `expires_at` (every
other column keeps its value), and when no row matches the pair the
whole cache is returned unchanged — and the function never raises. -/
theorem refresh_touches_only_activity_fields (zip_code bioguide_id : String)
    (bills votes : List ActivityItem) (c : Cache) (now : Nat) :
    update_representative_congress_data zip_code bioguide_id bills votes c now
        = c.map (refreshRow zip_code bioguide_id bills votes now)
    ∧ (∀ r : Row, (r.zip_code == zip_code && r.bioguide_id == bioguide_id) = false →
        refreshRow zip_code bioguide_id bills votes now r = r)
    ∧ (∀ r : Row, (r.zip_code == zip_code && r.bioguide_id == bioguide_id) = true →
        (refreshRow zip_code bioguide_id bills votes now r).recent_bills = bills
        ∧ (refreshRow zip_code bioguide_id bills votes now r).recent_votes = votes
        ∧ (refreshRow zip_code bioguide_id bills votes now r).expires_at = now + TTL
        ∧ (refreshRow zip_code bioguide_id bills votes now r).zip_code = r.zip_code
        ∧ (refreshRow zip_code bioguide_id bills votes now r).bioguide_id = r.bioguide_id
        ∧ (refreshRow zip_code bioguide_id bills votes now r).name = r.name
        ∧ (refreshRow zip_code bioguide_id bills votes now r).party = r.party
        ∧ (refreshRow zip_code bioguide_id bills votes now r).chamber = r.chamber
        ∧ (refreshRow zip_code bioguide_id bills votes now r).district = r.district
        ∧ (refreshRow zip_code bioguide_id bills votes now r).state = r.state
        ∧ (refreshRow zip_code bioguide_id bills votes now r).seniority = r.seniority
        ∧ (refreshRow zip_code bioguide_id bills votes now r).phone = r.phone
        ∧ (refreshRow zip_code bioguide_id bills votes now r).office_address = r.office_address
        ∧ (refreshRow zip_code bioguide_id bills votes now r).website = r.website
        ∧ (refreshRow zip_code bioguide_id bills votes now r).contact_form = r.contact_form
        ∧ (refreshRow zip_code bioguide_id bills votes now r).twitter = r.twitter
        ∧ (refreshRow zip_code bioguide_id bills votes now r).facebook = r.facebook
        ∧ (refreshRow zip_code bioguide_id bills votes now r).youtube = r.youtube
        ∧ (refreshRow zip_code bioguide_id bills votes now r).photo_url = r.photo_url
        ∧ (refreshRow zip_code bioguide_id bills votes now r).created_at = r.created_at)
    ∧ ((∀ r ∈ c, (r.zip_code == zip_code && r.bioguide_id == bioguide_id) = false) →
        update_representative_congress_data zip_code bioguide_id bills votes c now = c) := by
  refine ⟨rfl, ?_, ?_, ?_⟩
  · intro r hr
    simp [refreshRow, hr]
  · intro r hr
    simp [refreshRow, hr]
  · intro hnone
    have : ∀ r ∈ c, refreshRow zip_code bioguide_id bills votes now r = r := by
      intro r hr
      simp [refreshRow, hnone r hr]
    calc update_representative_congress_data zip_code bioguide_id bills votes c now
        = c.map id := List.map_congr_left this
      _ = c := List.map_id c

/-- C6 witness: refreshing `(12601, A1)` in a cache holding a matching
and a non-matching row rewrites only the matching row's activity fields
and leaves a cache without any matching row untouched. -/
theorem refresh_touches_only_activity_fields_witness :
    refreshRow "12601" "A1" [] [] 100 rowLive = rowLive
    ∧ (refreshRow "12601" "A1" [] [] 100 rowExpired).expires_at = 100 + TTL
    ∧ (refreshRow "12601" "A1" [] [] 100 rowExpired).created_at = rowExpired.created_at
    ∧ update_representative_congress_data "12601" "A1" [] [] [rowLive] 100 = [rowLive] :=
  ⟨(refresh_touches_only_activity_fields "12601" "A1" [] [] [rowLive, rowExpired] 100).2.1
      rowLive (by decide),
   ((refresh_touches_only_activity_fields "12601" "A1" [] [] [rowLive, rowExpired] 100).2.2.1
      rowExpired (by decide)).2.2.1,
   by
     have h := (refresh_touches_only_activity_fields "12601" "A1" [] [] [rowLive, rowExpired]
       100).2.2.1 rowExpired (by decide)
     exact h.2.2.2.2.2.2.2.2.2.2.2.2.2.2.2.2.2.2.2,
   (refresh_touches_only_activity_fields "12601" "A1" [] [] [rowLive] 100).2.2.2
      (by decide)⟩


theorem cache_representatives_preserves (P : Row → Prop) (zip_code : String) (now : Nat)
    (reps : List RepInput) (acc : Cache)
    (hacc : ∀ r ∈ acc, P r) (hnew : ∀ rep, P (toRow zip_code now rep)) :
    ∀ r ∈ reps.foldl (fun a rep => insertOrReplace (toRow zip_code now rep) a) acc, P r := by
  induction reps generalizing acc with
  | nil => simpa using hacc
  | cons rep rest ih =>
    intro r hr
    refine ih (insertOrReplace (toRow zip_code now rep) acc) ?_ r hr
    intro r0 h0
    simp only [insertOrReplace, List.mem_append, List.mem_filter, List.mem_singleton] at h0
    rcases h0 with ⟨h1, _⟩ | rfl
    · exact hacc r0 h1
    · exact hnew rep

/-! ## Expiry vs creation time (claim C3) -/

/-- C3 counterexample: cache a record at time 0 (so `created_at = 0`,
`expires_at = TTL`) and refresh its activity at time 10 — the refreshed
row has `expires_at = 10 + TTL` but still `created_at = 0`, so
`expires_at = created_at + TTL` fails after
`update_representative_congress_data`. -/
theorem refresh_breaks_expires_eq_created_plus_ttl :
    refreshedDemoCache.length = 1
    ∧ refreshedDemoCache.map (fun r => (r.created_at, r.expires_at)) = [(0, 10 + TTL)]
    ∧ refreshedDemoCache.all (fun r => r.expires_at == r.created_at + TTL) = false := by
  refine ⟨rfl, rfl, ?_⟩
  decide

/-- C3 amended: `expires_at = created_at + TTL` holds for every row a
`cache_representatives` write produces, but a refresh resets only
`expires_at`, to refresh-time + TTL, and leaves `created_at` unchanged —
so after a refresh at time `t` the matching row has `expires_at = t +
TTL`, not `created_at + TTL`. -/
theorem expires_at_equals_created_plus_ttl_amended :
    (∀ zip_code now rep, (toRow zip_code now rep).expires_at
        = (toRow zip_code now rep).created_at + TTL)
    ∧ (∀ zip_code reps c now, ∀ r ∈ cache_representatives zip_code reps c now,
        (∀ r0 ∈ c, r0.expires_at = r0.created_at + TTL) →
        r.expires_at = r.created_at + TTL)
    ∧ (∀ zip_code bioguide_id bills votes now (r : Row),
        (refreshRow zip_code bioguide_id bills votes now r).created_at = r.created_at
        ∧ ((r.zip_code == zip_code && r.bioguide_id == bioguide_id) = true →
            (refreshRow zip_code bioguide_id bills votes now r).expires_at = now + TTL)) := by
  refine ⟨fun _ _ _ => rfl, ?_, ?_⟩
  · intro zip_code reps c now r hr hc
    have hbase : ∀ r0 ∈ c.filter (fun r => !(r.zip_code == zip_code)),
        r0.expires_at = r0.created_at + TTL := by
      intro r0 h0
      exact hc r0 (List.mem_filter.mp h0).1
    exact cache_representatives_preserves (fun r => r.expires_at = r.created_at + TTL)
      zip_code now reps _ hbase (fun _ => rfl) r hr
  · intro zip_code bioguide_id bills votes now r
    constructor
    · by_cases h : (r.zip_code == zip_code && r.bioguide_id == bioguide_id) = true
      · simp [refreshRow, h]
      · simp [refreshRow, h]
    · intro h
      simp [refreshRow, h]

/-- C3 amended witness: a record cached at time 0 satisfies the TTL
relation, and refreshing it at time 10 resets `expires_at` to
`10 + TTL`. -/
theorem expires_at_equals_created_plus_ttl_amended_witness :
    (toRow "12601" 0 repInA).expires_at = (toRow "12601" 0 repInA).created_at + TTL
    ∧ (refreshRow "12601" "A1" [] [] 10 (toRow "12601" 0 repInA)).expires_at = 10 + TTL :=
  ⟨expires_at_equals_created_plus_ttl_amended.1 "12601" 0 repInA,
   (expires_at_equals_created_plus_ttl_amended.2.2 "12601" "A1" [] [] 10
      (toRow "12601" 0 repInA)).2 (by decide)⟩

/-! ## Cache miss result (claim C4) -/

/-- C4 counterexample: on a ZIP with no stored rows,
`get_cached_representatives` returns `none` — Python's `None` — which is
a different value from the empty list the claim asks for. -/
theorem cache_miss_returns_none_not_empty_list :
    get_cached_representatives "99999" [] 0 = none
    ∧ get_cached_representatives "12601" [rowExpired] 100 = none
    ∧ (none : Option (List RepOut)) ≠ some [] := by
  refine ⟨rfl, by decide, by decide⟩

/-- C4 amended: for a ZIP with no stored rows, or with only rows whose
`expires_at` has passed, `get_cached_representatives` returns `None`
(the falsy miss marker every caller treats as empty) rather than raising
an exception — but not the empty list itself. -/
theorem cache_miss_returns_none (c : Cache) (zip_code : String) (now : Nat)
    (h : ∀ r ∈ c, r.zip_code = zip_code → r.expires_at ≤ now) :
    get_cached_representatives zip_code c now = none := by
  have hvis : visibleRows zip_code c now = [] := by
    rw [visibleRows, List.filter_eq_nil_iff]
    intro r hr
    simp only [Bool.and_eq_true, beq_iff_eq, decide_eq_true_eq, not_and]
    intro hz
    exact Nat.not_lt.mpr (h r hr hz)
  simp [get_cached_representatives, hvis, sortRows]

/-- C4 amended witness: a cache holding only a row for ZIP 12601 that
expired before time 100 yields `none`. -/
theorem cache_miss_returns_none_witness :
    get_cached_representatives "12601" [rowExpired] 100 = none :=
  cache_miss_returns_none [rowExpired] "12601" 100 (by decide)

/-! ## Grouping by chamber (claim C10) -/

/-- C10: `get_representatives_by_type` puts exactly the records with
chamber `'Senator'` into `senators` and exactly those with chamber
`'Representative'` into `representative`; a visible record with any
other chamber value (such as the `'Legislator'` fallback) lands in
neither group, so the two groups together can hold strictly fewer
records than `get_cached_representatives` returns — as the concrete
one-`Legislator` cache in the last conjunct shows. -/
theorem grouped_by_chamber_exact (zip_code : String) (c : Cache) (now : Nat) :
    (get_representatives_by_type zip_code c now).senators
        = (repsOf (get_cached_representatives zip_code c now)).filter
            (fun rep => rep.chamber == some "Senator")
    ∧ (get_representatives_by_type zip_code c now).representative
        = (repsOf (get_cached_representatives zip_code c now)).filter
            (fun rep => rep.chamber == some "Representative")
    ∧ (∀ rep ∈ repsOf (get_cached_representatives zip_code c now),
        rep.chamber ≠ some "Senator" → rep.chamber ≠ some "Representative" →
        rep ∉ (get_representatives_by_type zip_code c now).senators
        ∧ rep ∉ (get_representatives_by_type zip_code c now).representative)
    ∧ (get_representatives_by_type "10001" [rowLegislator] 0).senators.length
        + (get_representatives_by_type "10001" [rowLegislator] 0).representative.length
      < (repsOf (get_cached_representatives "10001" [rowLegislator] 0)).length := by
  have hsen : (get_representatives_by_type zip_code c now).senators
      = (repsOf (get_cached_representatives zip_code c now)).filter
          (fun rep => rep.chamber == some "Senator") := by
    rw [get_representatives_by_type]
    rcases hrep : get_cached_representatives zip_code c now with _ | all_reps
    · rfl
    · by_cases he : all_reps.isEmpty
      · rw [List.isEmpty_iff] at he
        subst he
        simp [repsOf]
      · simp [he, repsOf]
  have hhouse : (get_representatives_by_type zip_code c now).representative
      = (repsOf (get_cached_representatives zip_code c now)).filter
          (fun rep => rep.chamber == some "Representative") := by
    rw [get_representatives_by_type]
    rcases hrep : get_cached_representatives zip_code c now with _ | all_reps
    · rfl
    · by_cases he : all_reps.isEmpty
      · rw [List.isEmpty_iff] at he
        subst he
        simp [repsOf]
      · simp [he, repsOf]
  refine ⟨hsen, hhouse, ?_, ?_⟩
  · intro rep _ hs hr
    constructor
    · rw [hsen]
      intro hmem
      exact hs (by simpa using (List.mem_filter.mp hmem).2)
    · rw [hhouse]
      intro hmem
      exact hr (by simpa using (List.mem_filter.mp hmem).2)
  · decide

/-- C10 witness: the `Legislator`-fallback record cached for ZIP 10001
is visible to `get_cached_representatives` yet appears in neither
group. -/
theorem grouped_by_chamber_exact_witness :
    toOut rowLegislator ∈ repsOf (get_cached_representatives "10001" [rowLegislator] 0)
    ∧ toOut rowLegislator ∉ (get_representatives_by_type "10001" [rowLegislator] 0).senators
    ∧ toOut rowLegislator ∉ (get_representatives_by_type "10001" [rowLegislator] 0).representative :=
  ⟨by decide,
   ((grouped_by_chamber_exact "10001" [rowLegislator] 0).2.2.1 (toOut rowLegislator)
      (by decide) (by decide) (by decide)).1,
   ((grouped_by_chamber_exact "10001" [rowLegislator] 0).2.2.1 (toOut rowLegislator)
      (by decide) (by decide) (by decide)).2⟩

/-! ## Expiry boundary (claim C2) -/

/-- C2: a cached row whose `expires_at` is `T + TTL` is part of the
reply of `get_cached_representatives` at every time before `T + TTL`,
is absent from it at every time after `T + TTL`, and stays physically
stored — it belongs to the table until
`cleanup_expired_representatives` runs, which keeps it exactly while
`expires_at < now` fails.  The key-uniqueness hypothesis is the table's
`UNIQUE(zip_code, bioguide_id)` constraint. -/
theorem expiry_boundary (c : Cache) (zip_code : String) (r : Row) (t T : Nat)
    (hmem : r ∈ c) (hz : r.zip_code = zip_code) (hexp : r.expires_at = T + TTL)
    (hkeys : keysNodup c) :
    (t < T + TTL →
      ∃ reps, get_cached_representatives zip_code c t = some reps ∧ toOut r ∈ reps)
    ∧ (T + TTL < t →
        (∀ reps, get_cached_representatives zip_code c t = some reps → toOut r ∉ reps)
        ∧ r ∉ (cleanup_expired_representatives c t).2)
    ∧ (r ∈ (cleanup_expired_representatives c t).2 ↔ ¬ r.expires_at < t) := by
  refine ⟨?_, ?_, ?_⟩
  · intro ht
    have hv : r ∈ visibleRows zip_code c t := by
      rw [visibleRows, List.mem_filter]
      refine ⟨hmem, ?_⟩
      simp only [Bool.and_eq_true, beq_iff_eq, decide_eq_true_eq]
      exact ⟨hz, by rw [hexp]; exact ht⟩
    have hs : toOut r ∈ (sortRows (visibleRows zip_code c t)).map toOut :=
      List.mem_map_of_mem _ (((sortRows_perm _).mem_iff).mpr hv)
    have hne : ¬ (sortRows (visibleRows zip_code c t)).isEmpty = true := by
      simp only [List.isEmpty_iff]
      exact List.ne_nil_of_mem (((sortRows_perm _).mem_iff).mpr hv)
    refine ⟨(sortRows (visibleRows zip_code c t)).map toOut, ?_, hs⟩
    simp [get_cached_representatives, hne]
  · intro ht
    constructor
    · intro reps hreps hmemout
      rw [get_cached_representatives] at hreps
      by_cases he : (sortRows (visibleRows zip_code c t)).isEmpty
      · simp [he] at hreps
      · simp [he] at hreps
        subst hreps
        obtain ⟨r1, hr1, hout⟩ := List.mem_map.mp hmemout
        have hr1v : r1 ∈ visibleRows zip_code c t := ((sortRows_perm _).mem_iff).mp hr1
        rw [visibleRows, List.mem_filter] at hr1v
        obtain ⟨hr1c, hcond⟩ := hr1v
        simp only [Bool.and_eq_true, beq_iff_eq, decide_eq_true_eq] at hcond
        obtain ⟨hz1, hlt1⟩ := hcond
        have hbio : r1.bioguide_id = r.bioguide_id := congrArg RepOut.bioguide_id hout
        have heq : r1 = r := keysNodup_inj hkeys hr1c hmem (by rw [hz1, hz]) hbio
        rw [heq, hexp] at hlt1
        omega
    · intro hmem2
      simp only [cleanup_expired_representatives] at hmem2
      have := (List.mem_filter.mp hmem2).2
      simp only [Bool.not_eq_true', decide_eq_false_iff_not] at this
      rw [hexp] at this
      omega
  · simp only [cleanup_expired_representatives]
    constructor
    · intro hmem2
      have := (List.mem_filter.mp hmem2).2
      simpa using this
    · intro hnlt
      exact List.mem_filter.mpr ⟨hmem, by simpa using hnlt⟩

/-- C2 witness: the row cached at time 0 for ZIP 12601 is visible at
time 100 and gone from the reply at time `TTL + 1`, at which point
eviction removes it. -/
theorem expiry_boundary_witness :
    (∃ reps, get_cached_representatives "12601" [toRow "12601" 0 repInA] 100 = some reps
        ∧ toOut (toRow "12601" 0 repInA) ∈ reps)
    ∧ (∀ reps, get_cached_representatives "12601" [toRow "12601" 0 repInA] (TTL + 1) = some reps
        → toOut (toRow "12601" 0 repInA) ∉ reps)
    ∧ toRow "12601" 0 repInA
        ∉ (cleanup_expired_representatives [toRow "12601" 0 repInA] (TTL + 1)).2 :=
  ⟨(expiry_boundary [toRow "12601" 0 repInA] "12601" (toRow "12601" 0 repInA) 100 0
      (by decide) rfl rfl (by simp [keysNodup])).1 (by decide),
   ((expiry_boundary [toRow "12601" 0 repInA] "12601" (toRow "12601" 0 repInA) (TTL + 1) 0
      (by decide) rfl rfl (by simp [keysNodup])).2.1 (by decide)).1,
   ((expiry_boundary [toRow "12601" 0 repInA] "12601" (toRow "12601" 0 repInA) (TTL + 1) 0
      (by decide) rfl rfl (by simp [keysNodup])).2.1 (by decide)).2⟩

/-! ## Replace semantics of put (claim C1) -/

theorem foldl_insertOrReplace_eq_append (zip_code : String) (now : Nat)
    (reps : List RepInput) (acc : Cache)
    (hn : (reps.map RepInput.bioguide_id).Nodup)
    (hd : ∀ r ∈ acc, r.zip_code = zip_code →
        r.bioguide_id ∉ reps.map RepInput.bioguide_id) :
    reps.foldl (fun a rep => insertOrReplace (toRow zip_code now rep) a) acc
      = acc ++ reps.map (toRow zip_code now) := by
  induction reps generalizing acc with
  | nil => simp
  | cons rep rest ih =>
    have hnotin : rep.bioguide_id ∉ rest.map RepInput.bioguide_id := by
      simp only [List.map_cons, List.nodup_cons] at hn
      exact hn.1
    have hnrest : (rest.map RepInput.bioguide_id).Nodup := by
      simp only [List.map_cons, List.nodup_cons] at hn
      exact hn.2
    have hstep : insertOrReplace (toRow zip_code now rep) acc
        = acc ++ [toRow zip_code now rep] := by
      rw [insertOrReplace]
      congr 1
      apply List.filter_eq_self.mpr
      intro r hr
      by_cases hzip : r.zip_code = zip_code
      · have hb : r.bioguide_id ≠ rep.bioguide_id := by
          intro heq
          apply hd r hr hzip
          rw [heq]
          simp
        simp [toRow, hzip, hb]
      · simp [toRow, hzip]
    rw [List.foldl_cons, hstep,
      ih (acc ++ [toRow zip_code now rep]) hnrest ?_, List.append_assoc,
      List.singleton_append, List.map_cons]
    intro r hr hzip
    rcases List.mem_append.mp hr with h1 | h1
    · have := hd r h1 hzip
      intro hin
      exact this (by simp only [List.map_cons, List.mem_cons]; exact Or.inr hin)
    · rw [List.mem_singleton.mp h1]
      exact hnotin

theorem cache_representatives_eq (zip_code : String) (reps : List RepInput)
    (c : Cache) (now : Nat) (hn : (reps.map RepInput.bioguide_id).Nodup) :
    cache_representatives zip_code reps c now
      = c.filter (fun r => !(r.zip_code == zip_code)) ++ reps.map (toRow zip_code now) := by
  rw [cache_representatives]
  apply foldl_insertOrReplace_eq_append zip_code now reps _ hn
  intro r hr hzip
  have h2 := (List.mem_filter.mp hr).2
  simp [hzip] at h2

/-- C1: after `cache_representatives zip_code reps` — no matter what the
cache held before, including rows written by earlier put calls for the
same ZIP that have not expired — the rows stored for that ZIP are
exactly the rows built from `reps`, and any later
`get_cached_representatives` for the ZIP returns at most one record per
`bioguide_id`.  The hypothesis is that the put's input carries distinct
bioguide ids, the well-formedness the spec's record model assumes. -/
theorem put_replaces_rows_and_get_unique (c : Cache) (zip_code : String)
    (reps : List RepInput) (now : Nat)
    (hn : (reps.map RepInput.bioguide_id).Nodup) :
    rowsFor zip_code (cache_representatives zip_code reps c now)
        = reps.map (toRow zip_code now)
    ∧ ∀ t, ((repsOf (get_cached_representatives zip_code
          (cache_representatives zip_code reps c now) t)).map RepOut.bioguide_id).Nodup := by
  have hcr := cache_representatives_eq zip_code reps c now hn
  constructor
  · rw [rowsFor, hcr, List.filter_append]
    have h1 : (c.filter (fun r => !(r.zip_code == zip_code))).filter
        (fun r => r.zip_code == zip_code) = [] := by
      rw [List.filter_filter]
      apply List.filter_eq_nil_iff.mpr
      intro r _
      cases hb : r.zip_code == zip_code <;> simp [hb]
    have h2 : (reps.map (toRow zip_code now)).filter (fun r => r.zip_code == zip_code)
        = reps.map (toRow zip_code now) := by
      apply List.filter_eq_self.mpr
      intro r hr
      obtain ⟨rep, _, rfl⟩ := List.mem_map.mp hr
      simp [toRow]
    rw [h1, h2, List.nil_append]
  · intro t
    rcases hget : get_cached_representatives zip_code
        (cache_representatives zip_code reps c now) t with _ | reps2
    · simp [repsOf]
    · rw [get_cached_representatives] at hget
      by_cases he : (sortRows (visibleRows zip_code
          (cache_representatives zip_code reps c now) t)).isEmpty
      · simp [he] at hget
      · simp [he] at hget
        subst hget
        simp only [repsOf, List.map_map]
        have hfun : (sortRows (visibleRows zip_code
              (cache_representatives zip_code reps c now) t)).map (RepOut.bioguide_id ∘ toOut)
            = (sortRows (visibleRows zip_code
              (cache_representatives zip_code reps c now) t)).map Row.bioguide_id :=
          List.map_congr_left (fun r _ => rfl)
        rw [hfun]
        rw [List.Perm.nodup_iff ((sortRows_perm _).map Row.bioguide_id)]
        have hvis : visibleRows zip_code (cache_representatives zip_code reps c now) t
            = (reps.map (toRow zip_code now)).filter
                (fun r => r.zip_code == zip_code && decide (t < r.expires_at)) := by
          rw [visibleRows, hcr, List.filter_append]
          have h1 : (c.filter (fun r => !(r.zip_code == zip_code))).filter
              (fun r => r.zip_code == zip_code && decide (t < r.expires_at)) = [] := by
            rw [List.filter_filter]
            apply List.filter_eq_nil_iff.mpr
            intro r _
            cases hb : r.zip_code == zip_code <;> simp [hb]
          rw [h1, List.nil_append]
        rw [hvis]
        have hn2 : ((reps.map (toRow zip_code now)).map Row.bioguide_id).Nodup := by
          rw [List.map_map]
          have heqf : reps.map (Row.bioguide_id ∘ toRow zip_code now)
              = reps.map RepInput.bioguide_id := List.map_congr_left (fun rep _ => rfl)
          rw [heqf]
          exact hn
        exact List.Nodup.sublist ((List.filter_sublist _).map Row.bioguide_id) hn2

/-- C1 witness: put records A and B for ZIP 12601 at time 0, then put
only record C at time 50, well before A and B would expire; only C's row
remains for the ZIP, and the later get is duplicate-free. -/
theorem put_replaces_rows_and_get_unique_witness :
    rowsFor "12601" (cache_representatives "12601" [repInC]
        (cache_representatives "12601" [repInA, repInB] [] 0) 50)
      = [toRow "12601" 50 repInC]
    ∧ ((repsOf (get_cached_representatives "12601"
        (cache_representatives "12601" [repInC]
          (cache_representatives "12601" [repInA, repInB] [] 0) 50) 60)).map
        RepOut.bioguide_id).Nodup :=
  ⟨(put_replaces_rows_and_get_unique
      (cache_representatives "12601" [repInA, repInB] [] 0) "12601" [repInC] 50
      (by decide)).1,
   (put_replaces_rows_and_get_unique
      (cache_representatives "12601" [repInA, repInB] [] 0) "12601" [repInC] 50
      (by decide)).2 60⟩

/-! ## Chamber classification (claim C9) -/

/-- C9: the chamber of a normalized record is a function of the
lower-cased upstream `type` string by substring matching — `"senator"`
inside it gives chamber Senator with a null district; otherwise
`"representative"` inside it gives chamber Representative with the
ZIP's district number; any other value gives the Legislator fallback,
also carrying the district number — and `get_representatives` builds
its reply exactly by this normalization. -/
theorem chamber_classification (district_info : DistrictInfo) (legislator : Legislator) :
    (containsSub (strLower (legislator.type.getD "")) "senator" = true →
      (normalizeLegislator district_info legislator).chamber = "Senator"
      ∧ (normalizeLegislator district_info legislator).district = none)
    ∧ (containsSub (strLower (legislator.type.getD "")) "senator" = false →
        containsSub (strLower (legislator.type.getD "")) "representative" = true →
      (normalizeLegislator district_info legislator).chamber = "Representative"
      ∧ (normalizeLegislator district_info legislator).district
          = district_info.congressional_district.number)
    ∧ (containsSub (strLower (legislator.type.getD "")) "senator" = false →
        containsSub (strLower (legislator.type.getD "")) "representative" = false →
      (normalizeLegislator district_info legislator).chamber = "Legislator"
      ∧ (normalizeLegislator district_info legislator).district
          = district_info.congressional_district.number)
    ∧ (∀ (geocode : String → GeoReply) (zip_code : String),
        lookup_zip_code geocode zip_code = .ok district_info →
        geocodio_get_representatives geocode zip_code
          = .ok (district_info.congressional_district.current_legislators.map
              (normalizeLegislator district_info))) := by
  refine ⟨?_, ?_, ?_, ?_⟩
  · intro h
    constructor <;> simp [normalizeLegislator, h]
  · intro h1 h2
    constructor <;> simp [normalizeLegislator, h1, h2]
  · intro h1 h2
    constructor <;> simp [normalizeLegislator, h1, h2]
  · intro geocode zip_code hok
    rw [geocodio_get_representatives, hok]

/-- C9 witness: with the stub reply for ZIP 12601, the three upstream
types "U.S. Senator", "U.S. Representative" and "Delegate" classify to
Senator without district, Representative with district 18, and the
Legislator fallback with district 18. -/
theorem chamber_classification_witness :
    ((normalizeLegislator demoDistrictInfo demoSenLeg).chamber = "Senator"
      ∧ (normalizeLegislator demoDistrictInfo demoSenLeg).district = none)
    ∧ ((normalizeLegislator demoDistrictInfo demoRepLeg).chamber = "Representative"
      ∧ (normalizeLegislator demoDistrictInfo demoRepLeg).district = some 18)
    ∧ ((normalizeLegislator demoDistrictInfo demoOtherLeg).chamber = "Legislator"
      ∧ (normalizeLegislator demoDistrictInfo demoOtherLeg).district = some 18)
    ∧ geocodio_get_representatives demoGeo "12601"
        = .ok (demoDistrictInfo.congressional_district.current_legislators.map
            (normalizeLegislator demoDistrictInfo)) :=
  ⟨(chamber_classification demoDistrictInfo demoSenLeg).1 (by decide),
   (chamber_classification demoDistrictInfo demoRepLeg).2.1 (by decide) (by decide),
   (chamber_classification demoDistrictInfo demoOtherLeg).2.2.1 (by decide) (by decide),
   (chamber_classification demoDistrictInfo demoSenLeg).2.2.2 demoGeo "12601" rfl⟩

/-! ## Resolution failures (claim C7) -/

/-- C7 counterexample: for the malformed ZIP "123" the geocoding
resolution fails with a raised `GeocodioError`, yet the enrichment
operation `_fetch_representative_data` returns the empty list to its
caller instead of raising — its blanket `except Exception` swallows the
resolution error. -/
theorem resolution_failure_swallowed_by_enrichment :
    lookup_zip_code demoGeo "123"
        = .error "Invalid ZIP code format. Must be a 5-digit number."
    ∧ geocodio_get_representatives demoGeo "123"
        = .error "Invalid ZIP code format. Must be a 5-digit number."
    ∧ fetch_representative_data demoGeo billsOkStub billsOkStub "123" = [] :=
  ⟨rfl, rfl, rfl⟩

/-- C7 amended: every geocoding failure — malformed ZIP, transport
error, or no upstream match — raises a `GeocodioError` in
`lookup_zip_code`, and `get_representatives` propagates it unchanged to
its caller (nothing is written to any cache on this path); the chat
enrichment helper `_fetch_representative_data`, however, catches the
error and returns the empty list instead of propagating it. -/
theorem resolution_error_raised_then_swallowed (geocode : String → GeoReply)
    (sponsoredFetch cosponsoredFetch : BillFetch) (zip_code : String) :
    (validZip zip_code = false →
      lookup_zip_code geocode zip_code
        = .error "Invalid ZIP code format. Must be a 5-digit number.")
    ∧ (∀ msg, validZip zip_code = true → geocode zip_code = .failure msg →
        lookup_zip_code geocode zip_code
          = .error ("Geocodio API error for ZIP code " ++ zip_code ++ ": " ++ msg))
    ∧ (validZip zip_code = true → geocode zip_code = .reply [] →
        lookup_zip_code geocode zip_code
          = .error ("No results found for ZIP code " ++ zip_code ++ "."))
    ∧ (∀ e, lookup_zip_code geocode zip_code = .error e →
        geocodio_get_representatives geocode zip_code = .error e)
    ∧ (∀ e, geocodio_get_representatives geocode zip_code = .error e →
        fetch_representative_data geocode sponsoredFetch cosponsoredFetch zip_code = []) := by
  refine ⟨?_, ?_, ?_, ?_, ?_⟩
  · intro h
    rw [lookup_zip_code]
    simp [h]
  · intro msg hv hg
    rw [lookup_zip_code]
    simp [hv, hg]
  · intro hv hg
    rw [lookup_zip_code]
    simp [hv, hg]
  · intro e he
    rw [geocodio_get_representatives, he]
  · intro e he
    rw [fetch_representative_data, he]

/-- C7 amended witness: a transport failure on the well-formed ZIP
12601 surfaces as a `GeocodioError` from the resolution layer, and the
enrichment helper converts it into the empty list. -/
theorem resolution_error_raised_then_swallowed_witness :
    lookup_zip_code geoFailStub "12601"
        = .error ("Geocodio API error for ZIP code " ++ "12601" ++ ": "
            ++ "connection refused")
    ∧ geocodio_get_representatives geoFailStub "12601"
        = .error ("Geocodio API error for ZIP code " ++ "12601" ++ ": "
            ++ "connection refused")
    ∧ fetch_representative_data geoFailStub billsOkStub billsOkStub "12601" = [] :=
  ⟨(resolution_error_raised_then_swallowed geoFailStub billsOkStub billsOkStub "12601").2.1
      "connection refused" (by decide) rfl,
   (resolution_error_raised_then_swallowed geoFailStub billsOkStub billsOkStub "12601").2.2.2.1
      _ ((resolution_error_raised_then_swallowed geoFailStub billsOkStub billsOkStub
          "12601").2.1 "connection refused" (by decide) rfl),
   (resolution_error_raised_then_swallowed geoFailStub billsOkStub billsOkStub
      "12601").2.2.2.2 _
      ((resolution_error_raised_then_swallowed geoFailStub billsOkStub billsOkStub
          "12601").2.2.2.1 _
        ((resolution_error_raised_then_swallowed geoFailStub billsOkStub billsOkStub
            "12601").2.1 "connection refused" (by decide) rfl))⟩

/-! ## Partial-failure tolerance (claim C8) -/

/-- C8: when the ZIP resolves, `_fetch_representative_data` returns one
record per resolved legislator up to the fixed bound of 3 — the map over
`reps[:3]` — and raises nothing; each output keeps its legislator, and a
legislator whose activity fetches all fail still gets a record, with its
activity field equal to the empty sequence. -/
theorem partial_failure_tolerance (geocode : String → GeoReply)
    (sponsoredFetch cosponsoredFetch : BillFetch) (zip_code : String)
    (reps : List GeoRepInfo)
    (hok : geocodio_get_representatives geocode zip_code = .ok reps) :
    fetch_representative_data geocode sponsoredFetch cosponsoredFetch zip_code
        = (reps.take 3).map (enhanceRep sponsoredFetch cosponsoredFetch)
    ∧ (fetch_representative_data geocode sponsoredFetch cosponsoredFetch zip_code).length
        = min reps.length 3
    ∧ (∀ rep : GeoRepInfo, (enhanceRep sponsoredFetch cosponsoredFetch rep).rep = rep)
    ∧ (∀ (rep : GeoRepInfo) (b : String), rep.bioguide_id = some b → b ≠ "" →
        (∀ lim, ∃ m, sponsoredFetch b lim = .error m) →
        (∀ lim, ∃ m, cosponsoredFetch b lim = .error m) →
        enhanceRep sponsoredFetch cosponsoredFetch rep
          = { rep := rep, recent_activity := some [] }) := by
  have hfd : fetch_representative_data geocode sponsoredFetch cosponsoredFetch zip_code
      = (reps.take 3).map (enhanceRep sponsoredFetch cosponsoredFetch) := by
    rw [fetch_representative_data, hok]
  refine ⟨hfd, ?_, ?_, ?_⟩
  · rw [hfd, List.length_map, List.length_take, Nat.min_comm]
  · intro rep
    rw [enhanceRep]
    by_cases hb : (rep.bioguide_id.getD "").isEmpty <;> simp [hb]
  · intro rep b hbio hne hs hc
    obtain ⟨ms, hms⟩ := hs (5 / 2)
    obtain ⟨mc, hmc⟩ := hc (5 / 2)
    have hgd : rep.bioguide_id.getD "" = b := by rw [hbio]; rfl
    have hbe : b.isEmpty = false := by
      cases hbe2 : b.isEmpty
      · rfl
      · exact absurd ((String.isEmpty_iff b).mp hbe2) hne
    have hrec : get_member_voting_record sponsoredFetch cosponsoredFetch b 5 = [] := by
      rw [get_member_voting_record, get_member_sponsored_legislation,
        get_member_cosponsored_legislation, hms, hmc]
      rfl
    rw [enhanceRep, hgd]
    simp [hbe, hrec]

/-- C8 witness: with the stub reply resolving ZIP 12601 to 3
legislators and every activity fetch failing, the enrichment still
yields `min 3 3 = 3` records and the senator's record carries the empty
activity list. -/
theorem partial_failure_tolerance_witness :
    (fetch_representative_data demoGeo billsFailStub billsFailStub "12601").length
        = min demoGeoReps.length 3
    ∧ enhanceRep billsFailStub billsFailStub (normalizeLegislator demoDistrictInfo demoSenLeg)
        = { rep := normalizeLegislator demoDistrictInfo demoSenLeg,
            recent_activity := some [] } :=
  ⟨(partial_failure_tolerance demoGeo billsFailStub billsFailStub "12601" demoGeoReps
      rfl).2.1,
   (partial_failure_tolerance demoGeo billsFailStub billsFailStub "12601" demoGeoReps
      rfl).2.2.2 (normalizeLegislator demoDistrictInfo demoSenLeg) "S1" rfl (by decide)
      (fun _ => ⟨"timeout", rfl⟩) (fun _ => ⟨"timeout", rfl⟩)⟩
